import Mathlib

/-!
Verification of the flood-risk assessment core of `duong-an-toan`.

Shallow embedding of the deterministic parts of the source:
* the offline fallback of `getSafetyAdvice` (geminiService): station override,
  confidence policy and the three-stage risk cascade;
* `identifyDangerousSegments` (route segment danger detection);
* `sampleRoutePoints`, `isWithinBBox`, `findNearbyNCHMFStations` (geoService);
* the GDACS bounding-box override of `analyzePoint`.

JavaScript numbers are modelled as exact rationals (`ℚ`); `number | null`
fields as `Option ℚ`.  JavaScript's stable `Array.prototype.sort` is modelled
with `List.mergeSort`, which is stable.  `Math.round x` is `⌊x + 1/2⌋` and
`parseFloat(x.toFixed(1))` is `⌊10 x + 1/2⌋ / 10` (both round half toward +∞
for the nonnegative values that occur here).  Vietnamese/English advice
strings are carried verbatim; the number interpolation inside route reason
strings uses `toString` on `ℚ` in place of JavaScript float formatting
(display-only, no claim depends on it).
-/

/-- `Coordinates` from types.ts: latitude / longitude pair. -/
structure Coordinates where
  lat : ℚ
  lng : ℚ
deriving DecidableEq, Repr

instance : Inhabited Coordinates := ⟨⟨0, 0⟩⟩

/-- `RiskLevel` enum from types.ts. -/
inductive RiskLevel where
  | low
  | medium
  | high
  | unknown
deriving DecidableEq, Repr

/-- Numeric severity of a risk level (`Low < Medium < High`); `Unknown`
is the error sentinel and ranks lowest. -/
def RiskLevel.rank : RiskLevel → ℕ
  | .unknown => 0
  | .low => 1
  | .medium => 2
  | .high => 3

/-- `ConfidenceLevel` enum from types.ts. -/
inductive ConfidenceLevel where
  | low
  | medium
  | high
deriving DecidableEq, Repr

/-- `VehicleType` enum from types.ts. -/
inductive VehicleType where
  | car
  | motorcycle
  | pedestrian
deriving DecidableEq, Repr

/-- `LocationData` from types.ts (the fields the core logic reads).
`elevation` is `number | null`; `precipForecast6h` and `precip72h` are
optional fields. -/
structure LocationData where
  elevation : Option ℚ
  precipitation : ℚ
  precipForecast6h : Option ℚ
  precip72h : Option ℚ
  riverDischarge : ℚ
deriving DecidableEq, Repr

/-- `NCHMFStation` from types.ts (the fields the core logic reads).
`luongmuatd` (current rainfall) is `number | null`; `luongmuadb` is the 6h
forecast rainfall. -/
structure NCHMFStation where
  id : ℕ
  lat : ℚ
  lon : ℚ
  luongmuatd : Option ℚ
  luongmuadb : ℚ
deriving DecidableEq, Repr

/-- Result record of `getSafetyAdvice`. -/
structure SafetyResult where
  risk : RiskLevel
  advice : String
  confidence : ConfidenceLevel
deriving DecidableEq, Repr

/-- The TS pattern `elevation !== null && elevation < t`. -/
def elevBelow (elevation : Option ℚ) (t : ℚ) : Bool :=
  match elevation with
  | some e => decide (e < t)
  | none => false

/-- Generic default advice of the fallback. -/
def genericAdvice (isEnglish : Bool) : String :=
  if isEnglish then "Stay alert and monitor local news."
  else "Hãy cảnh giác và theo dõi tin tức địa phương."

/-- Advice of the 72h stage, saturated-ground High branch. -/
def advice72hHigh (isEnglish : Bool) : String :=
  if isEnglish then "Ground saturated from heavy rain (past 3 days). High flooding risk from overflowing rivers. Avoid travel."
  else "Đất bão hòa do mưa lớn (3 ngày qua). Nguy cơ ngập cao do sông tràn bờ. Tránh di chuyển."

/-- Advice of the 72h stage, saturated-ground Medium branch. -/
def advice72hMedium (isEnglish : Bool) : String :=
  if isEnglish then "Heavy rainfall over past 3 days. Ground saturated, flooding possible in low areas."
  else "Mưa lớn trong 3 ngày qua. Đất bão hòa, có thể ngập ở vùng trũng."

/-- Advice of the 72h stage, moderate-accumulation branch. -/
def advice72hAccum (isEnglish : Bool) : String :=
  if isEnglish then "Moderate rain accumulation + low elevation. Watch for rising water levels."
  else "Mưa tích lũy vừa + độ cao thấp. Theo dõi mực nước dâng."

/-- Advice of the elevation stage, low-lying (< 3 m) branch. -/
def adviceLowLying (isEnglish : Bool) : String :=
  if isEnglish then "Low-lying area, high flood risk. Move to higher ground immediately."
  else "Khu vực thấp trũng, nguy cơ ngập cao. Di chuyển lên vùng cao hơn ngay."

/-- Advice of the elevation stage, medium-elevation (< 10 m) branch. -/
def adviceMediumElevation (isEnglish : Bool) : String :=
  if isEnglish then "Medium elevation area. Monitor water levels and prepare to evacuate if needed."
  else "Khu vực có độ cao trung bình. Theo dõi mực nước và chuẩn bị sơ tán nếu cần."

/-- Advice of the precipitation stage, very-heavy-rain / flash-flood branch. -/
def adviceVeryHeavyRain (isEnglish : Bool) : String :=
  if isEnglish then "Very heavy rain, high risk of flash floods or severe flooding. Avoid travel."
  else "Mưa rất lớn, nguy cơ lũ quét hoặc ngập lụt cao. Tránh di chuyển."

/-- Advice of the precipitation stage, heavy-rain branch. -/
def adviceHeavyRain (isEnglish : Bool) : String :=
  if isEnglish then "Heavy rain, limit travel. Avoid low-lying areas."
  else "Mưa lớn, hạn chế di chuyển. Tránh các vùng trũng thấp."

/-- The offline-mode prefix prepended to the fallback advice. -/
def errorPrefix (isEnglish : Bool) : String :=
  if isEnglish then "Offline mode. " else "Chế độ ngoại tuyến. "

/-- PRIORITY 1 of the fallback cascade (72h accumulated rainfall), acting on
the running `(fallbackRisk, fallbackAdvice)` pair that was initialised to
`(Low, generic)`. -/
def stage72h (precip72hValue : ℚ) (elevation : Option ℚ) (isEnglish : Bool)
    (st : RiskLevel × String) : RiskLevel × String :=
  if precip72hValue > 100 ∧ elevBelow elevation 10 then
    (RiskLevel.high, advice72hHigh isEnglish)
  else if precip72hValue > 100 then
    (RiskLevel.medium, advice72hMedium isEnglish)
  else if precip72hValue > 50 ∧ elevBelow elevation 5 then
    (RiskLevel.medium, advice72hAccum isEnglish)
  else st

/-- PRIORITY 2 of the fallback cascade (elevation risk).  In the `< 3 m`
branch the source escalates the risk only from `Low` but always overwrites
the advice. -/
def stageElevation (elevation : Option ℚ) (isEnglish : Bool)
    (st : RiskLevel × String) : RiskLevel × String :=
  if elevBelow elevation 3 then
    ((if st.1 = RiskLevel.low then RiskLevel.high else st.1), adviceLowLying isEnglish)
  else if elevBelow elevation 10 ∧ st.1 = RiskLevel.low then
    (RiskLevel.medium, adviceMediumElevation isEnglish)
  else st

/-- PRIORITY 3 of the fallback cascade (current precipitation).  The `> 20`
branch overwrites risk and advice unconditionally. -/
def stagePrecip (precipitation : ℚ) (isEnglish : Bool)
    (st : RiskLevel × String) : RiskLevel × String :=
  if precipitation > 20 then
    (RiskLevel.high, adviceVeryHeavyRain isEnglish)
  else if precipitation > 10 ∧ st.1 = RiskLevel.low then
    (RiskLevel.medium, adviceHeavyRain isEnglish)
  else st

/-- The three-stage fallback risk cascade of `getSafetyAdvice`, run in source
order on the initial state `(Low, generic advice)`. -/
def fallbackCascade (precip72hValue : ℚ) (elevation : Option ℚ)
    (precipitation : ℚ) (isEnglish : Bool) : RiskLevel × String :=
  stagePrecip precipitation isEnglish
    (stageElevation elevation isEnglish
      (stage72h precip72hValue elevation isEnglish
        (RiskLevel.low, genericAdvice isEnglish)))

/-- Station override and confidence policy of the fallback: returns the
effective `(precipitation, precipForecast6h, confidence)` triple.  When at
least one supplied station lies within 15 km, the rainfall inputs are
replaced by the arithmetic means over those stations (`luongmuatd || 0`,
`luongmuadb`); an undefined `nearbyStations` argument is modelled as the
empty list (the source only tests `nearbyStations && nearbyStations.length > 0`). -/
def effectiveInputs (data : LocationData)
    (nearbyStations : List (NCHMFStation × ℚ)) : ℚ × Option ℚ × ConfidenceLevel :=
  if nearbyStations.length > 0 then
    let stationsWithin15km := nearbyStations.filter (fun s => decide (s.2 ≤ 15))
    if stationsWithin15km.length > 0 then
      ((stationsWithin15km.map (fun s => s.1.luongmuatd.getD 0)).sum / stationsWithin15km.length,
       some ((stationsWithin15km.map (fun s => s.1.luongmuadb)).sum / stationsWithin15km.length),
       ConfidenceLevel.high)
    else
      (data.precipitation, data.precipForecast6h, ConfidenceLevel.high)
  else if data.elevation = none then
    (data.precipitation, data.precipForecast6h, ConfidenceLevel.low)
  else
    (data.precipitation, data.precipForecast6h, ConfidenceLevel.medium)

/-- The client-side fallback of `getSafetyAdvice` (the `catch` branch of
geminiService): station override, confidence policy, three-stage cascade,
offline prefix.  The second element of a station pair is its `distance`
field.  `vehicleType` is accepted but never read by the fallback, exactly as
in the source. -/
def getSafetyAdviceFallback (data : LocationData) (vehicleType : Option VehicleType)
    (language : String) (nearbyStations : List (NCHMFStation × ℚ)) : SafetyResult :=
  let isEnglish := language == "en"
  let eff := effectiveInputs data nearbyStations
  let result := fallbackCascade (data.precip72h.getD 0) data.elevation eff.1 isEnglish
  { risk := result.1
    advice := errorPrefix isEnglish ++ result.2
    confidence := eff.2.2 }

/-- `DangerousSegment` from types.ts. -/
structure DangerousSegment where
  coordinates : Coordinates
  segmentIndex : ℕ
  riskLevel : RiskLevel
  reason : String
  distanceFromStart : ℚ
deriving DecidableEq, Repr

/-- One element of the `segmentDataWithCoords` argument of
`identifyDangerousSegments`. -/
structure SegmentInput where
  data : LocationData
  coords : Coordinates
  index : ℕ
deriving DecidableEq, Repr

/-- `Math.round` of JavaScript: round half toward +∞. -/
def jsRound (x : ℚ) : ℤ := ⌊x + 1 / 2⌋

/-- `parseFloat(x.toFixed(1))`: round to one decimal place (half toward +∞,
as JavaScript `toFixed` picks the larger candidate on ties). -/
def round1 (x : ℚ) : ℚ := (⌊x * 10 + 1 / 2⌋ : ℚ) / 10

/-- The per-sample risk/reason derivation of `identifyDangerousSegments`:
elevation check then precipitation check, each updating the running
`riskLevel` and appending to `reasons`. -/
def segmentRiskAndReasons (data : LocationData) : RiskLevel × List String :=
  let st0 : RiskLevel × List String := (RiskLevel.low, [])
  let st1 : RiskLevel × List String :=
    if elevBelow data.elevation 3 then
      (RiskLevel.high, st0.2 ++ ["độ cao rất thấp (" ++ toString (data.elevation.getD 0) ++ "m)"])
    else if elevBelow data.elevation 10 then
      ((if st0.1 = RiskLevel.low then RiskLevel.medium else st0.1),
       st0.2 ++ ["độ cao thấp (" ++ toString (data.elevation.getD 0) ++ "m)"])
    else st0
  let totalRain := data.precipitation + data.precipForecast6h.getD 0
  if totalRain > 30 then
    (RiskLevel.high, st1.2 ++ ["mưa lớn kéo dài (" ++ toString totalRain ++ "mm)"])
  else if data.precipitation > 20 then
    (RiskLevel.high, st1.2 ++ ["mưa rất lớn (" ++ toString data.precipitation ++ "mm)"])
  else if data.precipitation > 10 ∨ totalRain > 20 then
    ((if st1.1 = RiskLevel.low then RiskLevel.medium else st1.1),
     st1.2 ++ ["mưa lớn (" ++ toString data.precipitation ++ "mm)"])
  else st1

/-- Body of the `forEach` of `identifyDangerousSegments` for one sample:
emits a `DangerousSegment` exactly when the derived risk is not `Low` and at
least one reason accumulated.  `count` is `segmentDataWithCoords.length`. -/
def emitSegment (count : ℕ) (totalDistance : ℚ) (segment : SegmentInput) :
    Option DangerousSegment :=
  let rr := segmentRiskAndReasons segment.data
  if rr.1 ≠ RiskLevel.low ∧ rr.2 ≠ [] then
    let distanceFromStart : ℚ :=
      if totalDistance > 0 then ((segment.index : ℚ) / count) * (totalDistance / 1000) else 0
    some { coordinates := segment.coords
           segmentIndex := segment.index
           riskLevel := rr.1
           reason := String.intercalate ", " rr.2
           distanceFromStart := round1 distanceFromStart }
  else none

/-- `identifyDangerousSegments` from geminiService: per-sample derivation and
filtering.  `vehicleType` is accepted but never read, as in the source. -/
def identifyDangerousSegments (segmentDataWithCoords : List SegmentInput)
    (totalDistance : ℚ) (vehicleType : Option VehicleType) : List DangerousSegment :=
  segmentDataWithCoords.filterMap
    (emitSegment segmentDataWithCoords.length totalDistance)

/-- `sampleRoutePoints` from geoService: identity for short polylines,
otherwise `numSamples` evenly spaced indices `Math.round (i * step)` with
`step = (len - 1) / (numSamples - 1)`. -/
def sampleRoutePoints (coordinates : List Coordinates) (numSamples : ℕ) :
    List Coordinates :=
  if coordinates.length = 0 then []
  else if coordinates.length ≤ numSamples then coordinates
  else
    let step : ℚ := ((coordinates.length : ℚ) - 1) / ((numSamples : ℚ) - 1)
    (List.range numSamples).map
      (fun i : ℕ => coordinates.getD (jsRound ((i : ℚ) * step)).toNat default)

/-- `isWithinBBox` from geoService: inclusive containment in a
`[minLng, minLat, maxLng, maxLat]` bounding box. -/
def isWithinBBox (coords : Coordinates) (bbox : ℚ × ℚ × ℚ × ℚ) : Bool :=
  let (minLng, minLat, maxLng, maxLat) := bbox
  decide (coords.lat ≥ minLat) && decide (coords.lat ≤ maxLat) &&
    decide (coords.lng ≥ minLng) && decide (coords.lng ≤ maxLng)

/-- `findNearbyNCHMFStations` from geoService.  The Haversine
`calculateDistance` computes with transcendental functions on floats, so the
distance function is taken as a parameter `dist`; every list-level property
below is proved for all `dist`.  Output pairs carry the computed `distance`
in the second component.  JavaScript's stable sort is `List.mergeSort`. -/
def findNearbyNCHMFStations (dist : Coordinates → Coordinates → ℚ)
    (targetCoords : Coordinates) (allStations : List NCHMFStation)
    (radiusKm : ℚ) (maxResults : ℕ) : List (NCHMFStation × ℚ) :=
  ((((allStations.map
        (fun station => (station, dist targetCoords ⟨station.lat, station.lon⟩))).filter
      (fun station => decide (station.2 ≤ radiusKm))).mergeSort
      (fun a b => decide (a.2 ≤ b.2))).take maxResults)

/-- The stations of `findNearbyNCHMFStations` paired with their position in
the filtered list, sorted by the stability-explicit order `enumLE`: by
`List.mergeSort_enum`, projecting away the positions gives exactly the sort
the source performs, so this exposes which original entry each output row is. -/
def findNearbyIndexed (dist : Coordinates → Coordinates → ℚ)
    (targetCoords : Coordinates) (allStations : List NCHMFStation)
    (radiusKm : ℚ) : List (ℕ × (NCHMFStation × ℚ)) :=
  (((allStations.map
        (fun station => (station, dist targetCoords ⟨station.lat, station.lon⟩))).filter
      (fun station => decide (station.2 ≤ radiusKm))).enum).mergeSort
    (List.enumLE (fun a b => decide (a.2 ≤ b.2)))

/-- GDACS alert level from types.ts. -/
inductive AlertLevel where
  | Green
  | Orange
  | Red
deriving DecidableEq, Repr

/-- The `order` map of the `analyzePoint` comparator:
`{ Red: 3, Orange: 2, Green: 1 }`. -/
def alertOrder : AlertLevel → ℕ
  | .Red => 3
  | .Orange => 2
  | .Green => 1

/-- Display name of an alert level, as interpolated into the GDACS banner. -/
def alertLevelName : AlertLevel → String
  | .Red => "Red"
  | .Orange => "Orange"
  | .Green => "Green"

/-- `GDACSFloodAlert` from types.ts (the fields the override reads). -/
structure GDACSFloodAlert where
  alertLevel : AlertLevel
  bbox : ℚ × ℚ × ℚ × ℚ
deriving DecidableEq, Repr

/-- The GDACS warning banner of `analyzePoint`, prefixed to the AI advice. -/
def gdacsWarning (isEnglish : Bool) (level : AlertLevel) (advice : String) : String :=
  if isEnglish then
    "⚠️ GDACS " ++ alertLevelName level ++ " Alert: Active flood event detected by satellite. " ++ advice
  else
    "⚠️ Cảnh báo GDACS " ++ alertLevelName level ++ ": Phát hiện lũ lụt đang diễn ra qua vệ tinh. " ++ advice

/-- The post-hoc GDACS override of `analyzePoint`: filter alerts whose bbox
contains the point, pick the highest severity by the stable descending sort
on `alertOrder`, and force risk `High` with a banner-prefixed advice when it
is `Red` or `Orange`. -/
def applyGDACSOverride (coords : Coordinates) (gdacsAlerts : List GDACSFloodAlert)
    (isEnglish : Bool) (aiRisk : RiskLevel) (aiAdvice : String) : RiskLevel × String :=
  let matchingGDACSAlerts := gdacsAlerts.filter (fun alert => isWithinBBox coords alert.bbox)
  if matchingGDACSAlerts.length > 0 then
    match matchingGDACSAlerts.mergeSort
        (fun a b => decide (alertOrder b.alertLevel ≤ alertOrder a.alertLevel)) with
    | [] => (aiRisk, aiAdvice)
    | highestAlert :: _ =>
      if highestAlert.alertLevel = AlertLevel.Red ∨ highestAlert.alertLevel = AlertLevel.Orange then
        (RiskLevel.high, gdacsWarning isEnglish highestAlert.alertLevel aiAdvice)
      else (aiRisk, aiAdvice)
  else (aiRisk, aiAdvice)

/-! ## Helper lemmas -/

lemma rank_le_three (r : RiskLevel) : r.rank ≤ 3 := by
  cases r <;> simp [RiskLevel.rank]

lemma stagePrecip_of_gt20 (precipitation : ℚ) (isEnglish : Bool)
    (st : RiskLevel × String) (h : 20 < precipitation) :
    stagePrecip precipitation isEnglish st =
      (RiskLevel.high, adviceVeryHeavyRain isEnglish) := by
  simp [stagePrecip, h]

lemma fallbackCascade_of_gt20 (precip72hValue : ℚ) (elevation : Option ℚ)
    (precipitation : ℚ) (isEnglish : Bool) (h : 20 < precipitation) :
    fallbackCascade precip72hValue elevation precipitation isEnglish =
      (RiskLevel.high, adviceVeryHeavyRain isEnglish) := by
  unfold fallbackCascade
  exact stagePrecip_of_gt20 _ _ _ h

lemma getSafetyAdviceFallback_risk (data : LocationData) (vehicleType : Option VehicleType)
    (language : String) (nearbyStations : List (NCHMFStation × ℚ)) :
    (getSafetyAdviceFallback data vehicleType language nearbyStations).risk =
      (fallbackCascade (data.precip72h.getD 0) data.elevation
        (effectiveInputs data nearbyStations).1 (language == "en")).1 := rfl

lemma getSafetyAdviceFallback_advice (data : LocationData) (vehicleType : Option VehicleType)
    (language : String) (nearbyStations : List (NCHMFStation × ℚ)) :
    (getSafetyAdviceFallback data vehicleType language nearbyStations).advice =
      errorPrefix (language == "en") ++
        (fallbackCascade (data.precip72h.getD 0) data.elevation
          (effectiveInputs data nearbyStations).1 (language == "en")).2 := rfl

lemma getSafetyAdviceFallback_confidence (data : LocationData) (vehicleType : Option VehicleType)
    (language : String) (nearbyStations : List (NCHMFStation × ℚ)) :
    (getSafetyAdviceFallback data vehicleType language nearbyStations).confidence =
      (effectiveInputs data nearbyStations).2.2 := rfl

lemma effectiveInputs_confidence (data : LocationData)
    (stations : List (NCHMFStation × ℚ)) :
    (effectiveInputs data stations).2.2 =
      if stations.length > 0 then ConfidenceLevel.high
      else if data.elevation = none then ConfidenceLevel.low
      else ConfidenceLevel.medium := by
  unfold effectiveInputs
  dsimp only
  split_ifs <;> rfl

lemma effectiveInputs_fst (data : LocationData)
    (stations : List (NCHMFStation × ℚ)) :
    (effectiveInputs data stations).1 =
      if stations.length > 0 ∧
          (stations.filter (fun s => decide (s.2 ≤ 15))).length > 0 then
        ((stations.filter (fun s => decide (s.2 ≤ 15))).map
            (fun s => s.1.luongmuatd.getD 0)).sum /
          (stations.filter (fun s => decide (s.2 ≤ 15))).length
      else data.precipitation := by
  unfold effectiveInputs
  dsimp only
  split_ifs <;> first | rfl | tauto

/-! ## C1: the `precipitation > 20` stage forces High risk unconditionally -/

/-- C1.  In the fallback risk cascade of `getSafetyAdvice`, whenever the
effective current precipitation (after the optional station override) exceeds
20, the returned risk is `High` and the advice is the very-heavy-rain /
flash-flood message (with the offline prefix), regardless of elevation,
72h accumulation, stations, vehicle or language. -/
theorem precip_gt20_forces_high (data : LocationData) (vehicleType : Option VehicleType)
    (language : String) (nearbyStations : List (NCHMFStation × ℚ))
    (h : 20 < (effectiveInputs data nearbyStations).1) :
    (getSafetyAdviceFallback data vehicleType language nearbyStations).risk =
      RiskLevel.high ∧
    (getSafetyAdviceFallback data vehicleType language nearbyStations).advice =
      errorPrefix (language == "en") ++ adviceVeryHeavyRain (language == "en") := by
  rw [getSafetyAdviceFallback_risk, getSafetyAdviceFallback_advice,
    fallbackCascade_of_gt20 _ _ _ _ h]
  exact ⟨rfl, rfl⟩

/-- Witness for C1, the spec scenario: elevation 2 m, precipitation 25 mm,
precip72h 10 mm, no stations yields risk `High` with the flash-flood advice. -/
theorem precip_gt20_forces_high_witness :
    20 < (effectiveInputs ⟨some 2, 25, none, some 10, 0⟩ []).1 ∧
    (getSafetyAdviceFallback ⟨some 2, 25, none, some 10, 0⟩ none "vi" []).risk =
      RiskLevel.high := by
  refine ⟨by decide, ?_⟩
  exact (precip_gt20_forces_high ⟨some 2, 25, none, some 10, 0⟩ none "vi" [] (by decide)).1

/-! ## C2: the elevation(<3) stage escalates only from Low, always rewrites advice -/

/-- C2.  When the elevation-below-3 condition fires, the elevation stage of
the fallback cascade always overwrites the advice with the low-lying-area
message, and sets the risk to `High` exactly when the risk left by the
72h-accumulation stage was `Low`: a `Medium` stays `Medium` and a `High`
stays `High`. -/
theorem elevation_stage_escalates_only_from_low (precip72hValue : ℚ)
    (elevation : Option ℚ) (isEnglish : Bool)
    (h : elevBelow elevation 3) :
    (stageElevation elevation isEnglish
        (stage72h precip72hValue elevation isEnglish
          (RiskLevel.low, genericAdvice isEnglish))).2 = adviceLowLying isEnglish ∧
    (stageElevation elevation isEnglish
        (stage72h precip72hValue elevation isEnglish
          (RiskLevel.low, genericAdvice isEnglish))).1 =
      (if (stage72h precip72hValue elevation isEnglish
            (RiskLevel.low, genericAdvice isEnglish)).1 = RiskLevel.low
       then RiskLevel.high
       else (stage72h precip72hValue elevation isEnglish
              (RiskLevel.low, genericAdvice isEnglish)).1) ∧
    ((stage72h precip72hValue elevation isEnglish
        (RiskLevel.low, genericAdvice isEnglish)).1 = RiskLevel.medium →
      (stageElevation elevation isEnglish
        (stage72h precip72hValue elevation isEnglish
          (RiskLevel.low, genericAdvice isEnglish))).1 = RiskLevel.medium) ∧
    ((stage72h precip72hValue elevation isEnglish
        (RiskLevel.low, genericAdvice isEnglish)).1 = RiskLevel.high →
      (stageElevation elevation isEnglish
        (stage72h precip72hValue elevation isEnglish
          (RiskLevel.low, genericAdvice isEnglish))).1 = RiskLevel.high) ∧
    ((stage72h precip72hValue elevation isEnglish
        (RiskLevel.low, genericAdvice isEnglish)).1 = RiskLevel.low →
      (stageElevation elevation isEnglish
        (stage72h precip72hValue elevation isEnglish
          (RiskLevel.low, genericAdvice isEnglish))).1 = RiskLevel.high) := by
  refine ⟨by simp [stageElevation, h], by simp [stageElevation, h], ?_, ?_, ?_⟩ <;>
    intro h' <;> simp [stageElevation, h, h']

/-- Witness for C2: elevation 2 m with 72h accumulation 120 mm (the 72h stage
leaves `Medium`), the elevation stage keeps `Medium` and sets the
low-lying-area advice. -/
theorem elevation_stage_escalates_only_from_low_witness :
    (elevBelow (some 2) 3 = true) ∧
    (stageElevation (some 2) false
        (stage72h 120 (some 2) false (RiskLevel.low, genericAdvice false))).2 =
      adviceLowLying false :=
  ⟨by decide, (elevation_stage_escalates_only_from_low 120 (some 2) false (by decide)).1⟩

/-! ## C3: the confidence policy of the fallback -/

/-- C3.  The fallback confidence: any supplied station (within 15 km or not)
yields `High` confidence, even with null elevation; no stations and null
elevation yields `Low`; no stations and known elevation yields `Medium`. -/
theorem fallback_confidence_policy (data : LocationData) (vehicleType : Option VehicleType)
    (language : String) (nearbyStations : List (NCHMFStation × ℚ)) :
    (nearbyStations ≠ [] →
      (getSafetyAdviceFallback data vehicleType language nearbyStations).confidence =
        ConfidenceLevel.high) ∧
    (nearbyStations = [] → data.elevation = none →
      (getSafetyAdviceFallback data vehicleType language nearbyStations).confidence =
        ConfidenceLevel.low) ∧
    (nearbyStations = [] → ∀ e : ℚ, data.elevation = some e →
      (getSafetyAdviceFallback data vehicleType language nearbyStations).confidence =
        ConfidenceLevel.medium) := by
  rw [getSafetyAdviceFallback_confidence, effectiveInputs_confidence]
  refine ⟨fun hne => ?_, fun he hel => ?_, fun he e hel => ?_⟩
  · rw [if_pos (List.length_pos.2 hne)]
  · simp [he, hel]
  · simp [he, hel]

/-- Witness for C3: a single far (20 km) station with null elevation still
gives `High`; no stations with null elevation gives `Low`; no stations with
elevation 7 m gives `Medium`. -/
theorem fallback_confidence_policy_witness :
    (getSafetyAdviceFallback ⟨none, 0, none, none, 0⟩ none "en"
        [(⟨1, 0, 0, none, 0⟩, 20)]).confidence = ConfidenceLevel.high ∧
    (getSafetyAdviceFallback ⟨none, 0, none, none, 0⟩ none "en" []).confidence =
      ConfidenceLevel.low ∧
    (getSafetyAdviceFallback ⟨some 7, 0, none, none, 0⟩ none "en" []).confidence =
      ConfidenceLevel.medium :=
  ⟨(fallback_confidence_policy ⟨none, 0, none, none, 0⟩ none "en"
      [(⟨1, 0, 0, none, 0⟩, 20)]).1 (by decide),
   (fallback_confidence_policy ⟨none, 0, none, none, 0⟩ none "en" []).2.1 rfl rfl,
   (fallback_confidence_policy ⟨some 7, 0, none, none, 0⟩ none "en" []).2.2 rfl 7 rfl⟩

/-! ## C4: the within-15km station override of the rainfall inputs -/

/-- C4.  When at least one supplied station lies within 15 km, the fallback
runs the risk cascade on the arithmetic mean of `luongmuatd` (null read as 0)
over exactly the within-15-km stations, with the 6h forecast replaced by the
mean of `luongmuadb` over the same stations, before any cascade stage runs. -/
theorem station_override_means (data : LocationData) (vehicleType : Option VehicleType)
    (language : String) (nearbyStations : List (NCHMFStation × ℚ))
    (h : nearbyStations.filter (fun s => decide (s.2 ≤ 15)) ≠ []) :
    (effectiveInputs data nearbyStations).1 =
      ((nearbyStations.filter (fun s => decide (s.2 ≤ 15))).map
          (fun s => s.1.luongmuatd.getD 0)).sum /
        (nearbyStations.filter (fun s => decide (s.2 ≤ 15))).length ∧
    (effectiveInputs data nearbyStations).2.1 =
      some (((nearbyStations.filter (fun s => decide (s.2 ≤ 15))).map
          (fun s => s.1.luongmuadb)).sum /
        (nearbyStations.filter (fun s => decide (s.2 ≤ 15))).length) ∧
    (getSafetyAdviceFallback data vehicleType language nearbyStations).risk =
      (fallbackCascade (data.precip72h.getD 0) data.elevation
        (((nearbyStations.filter (fun s => decide (s.2 ≤ 15))).map
            (fun s => s.1.luongmuatd.getD 0)).sum /
          (nearbyStations.filter (fun s => decide (s.2 ≤ 15))).length)
        (language == "en")).1 ∧
    (getSafetyAdviceFallback data vehicleType language nearbyStations).advice =
      errorPrefix (language == "en") ++
        (fallbackCascade (data.precip72h.getD 0) data.elevation
          (((nearbyStations.filter (fun s => decide (s.2 ≤ 15))).map
              (fun s => s.1.luongmuatd.getD 0)).sum /
            (nearbyStations.filter (fun s => decide (s.2 ≤ 15))).length)
          (language == "en")).2 := by
  have hw : (nearbyStations.filter (fun s => decide (s.2 ≤ 15))).length > 0 :=
    List.length_pos.2 h
  have hs : nearbyStations.length > 0 :=
    List.length_pos.2 (fun h0 => h (by simp [h0]))
  have h1 : (effectiveInputs data nearbyStations).1 =
      ((nearbyStations.filter (fun s => decide (s.2 ≤ 15))).map
          (fun s => s.1.luongmuatd.getD 0)).sum /
        (nearbyStations.filter (fun s => decide (s.2 ≤ 15))).length := by
    rw [effectiveInputs_fst, if_pos ⟨hs, hw⟩]
  have h2 : (effectiveInputs data nearbyStations).2.1 =
      some (((nearbyStations.filter (fun s => decide (s.2 ≤ 15))).map
          (fun s => s.1.luongmuadb)).sum /
        (nearbyStations.filter (fun s => decide (s.2 ≤ 15))).length) := by
    unfold effectiveInputs
    dsimp only
    rw [if_pos hs, if_pos hw]
  exact ⟨h1, h2, by rw [getSafetyAdviceFallback_risk, h1],
    by rw [getSafetyAdviceFallback_advice, h1]⟩

/-- Witness for C4: two stations at 10 km and 20 km; only the 10 km one
(current rainfall 30 mm, forecast 6 mm) feeds the means, so the cascade sees
precipitation 30 and returns `High`. -/
theorem station_override_means_witness :
    ([(⟨1, 0, 0, some 30, 6⟩, 10), (⟨2, 0, 0, some 2, 1⟩, 20)] :
        List (NCHMFStation × ℚ)).filter (fun s => decide (s.2 ≤ 15)) ≠ [] ∧
    (effectiveInputs ⟨some 50, 0, none, none, 0⟩
        [(⟨1, 0, 0, some 30, 6⟩, 10), (⟨2, 0, 0, some 2, 1⟩, 20)]).1 = 30 ∧
    (getSafetyAdviceFallback ⟨some 50, 0, none, none, 0⟩ none "en"
        [(⟨1, 0, 0, some 30, 6⟩, 10), (⟨2, 0, 0, some 2, 1⟩, 20)]).risk =
      RiskLevel.high := by
  have h := station_override_means ⟨some 50, 0, none, none, 0⟩ none "en"
    [(⟨1, 0, 0, some 30, 6⟩, 10), (⟨2, 0, 0, some 2, 1⟩, 20)] (by decide)
  have h30 : ((([(⟨1, 0, 0, some 30, 6⟩, 10), (⟨2, 0, 0, some 2, 1⟩, 20)] :
        List (NCHMFStation × ℚ)).filter (fun s => decide (s.2 ≤ 15))).map
          (fun s => s.1.luongmuatd.getD 0)).sum /
      (([(⟨1, 0, 0, some 30, 6⟩, 10), (⟨2, 0, 0, some 2, 1⟩, 20)] :
        List (NCHMFStation × ℚ)).filter (fun s => decide (s.2 ≤ 15))).length = 30 := by
    norm_num
  refine ⟨by decide, ?_, ?_⟩
  · rw [h.1, h30]
  · rw [h.2.2.1, h30]
    decide

/-! ## C6: monotonicity of the cascade in rainfall -/

lemma stageElevation_fst_high (elevation : Option ℚ) (isEnglish : Bool)
    (st : RiskLevel × String) (h : st.1 = RiskLevel.high) :
    (stageElevation elevation isEnglish st).1 = RiskLevel.high := by
  unfold stageElevation
  split_ifs <;> simp_all

lemma stagePrecip_fst_high (precipitation : ℚ) (isEnglish : Bool)
    (st : RiskLevel × String) (h : st.1 = RiskLevel.high) :
    (stagePrecip precipitation isEnglish st).1 = RiskLevel.high := by
  unfold stagePrecip
  split_ifs <;> simp_all

lemma fallbackCascade_fst_of_72h (precip72hValue precipitation : ℚ)
    (elevation : Option ℚ) (isEnglish : Bool)
    (h1 : 100 < precip72hValue) (h2 : elevBelow elevation 10) :
    (fallbackCascade precip72hValue elevation precipitation isEnglish).1 =
      RiskLevel.high := by
  unfold fallbackCascade
  apply stagePrecip_fst_high
  apply stageElevation_fst_high
  unfold stage72h
  rw [if_pos ⟨h1, h2⟩]

/-- C6.  Monotonicity of the fallback in rainfall: with everything else
fixed, raising `precipitation` from 10 to 20.1 never strictly lowers the
risk level, and (for known elevation below 10 m) raising `precip72h` from 50
to 100.1 never strictly lowers the risk level. -/
theorem cascade_monotone_in_rainfall (data : LocationData)
    (vehicleType : Option VehicleType) (language : String)
    (nearbyStations : List (NCHMFStation × ℚ)) :
    ((getSafetyAdviceFallback { data with precipitation := 10 }
        vehicleType language nearbyStations).risk.rank ≤
      (getSafetyAdviceFallback { data with precipitation := 20.1 }
        vehicleType language nearbyStations).risk.rank) ∧
    (elevBelow data.elevation 10 →
      (getSafetyAdviceFallback { data with precip72h := some 50 }
          vehicleType language nearbyStations).risk.rank ≤
        (getSafetyAdviceFallback { data with precip72h := some 100.1 }
          vehicleType language nearbyStations).risk.rank) := by
  constructor
  · by_cases hc : nearbyStations.length > 0 ∧
        (nearbyStations.filter (fun s => decide (s.2 ≤ 15))).length > 0
    · rw [getSafetyAdviceFallback_risk, getSafetyAdviceFallback_risk,
        effectiveInputs_fst, effectiveInputs_fst, if_pos hc, if_pos hc]
    · rw [getSafetyAdviceFallback_risk, getSafetyAdviceFallback_risk,
        effectiveInputs_fst, effectiveInputs_fst, if_neg hc, if_neg hc]
      refine le_trans (rank_le_three _) ?_
      have h201 : (20 : ℚ) <
          ({ data with precipitation := 20.1 } : LocationData).precipitation := by
        norm_num
      rw [fallbackCascade_of_gt20 _ _ _ _ h201]
      exact le_refl 3
  · intro h10
    refine le_trans (rank_le_three _) ?_
    have h100 : (100 : ℚ) <
        ({ data with precip72h := some 100.1 } : LocationData).precip72h.getD 0 := by
      norm_num
    rw [getSafetyAdviceFallback_risk, fallbackCascade_fst_of_72h _ _ _ _ h100 h10]
    exact le_refl 3

/-- Witness for C6: elevation 5 m, no stations; the 72h part applies with
`elevBelow (some 5) 10`. -/
theorem cascade_monotone_in_rainfall_witness :
    elevBelow (some (5 : ℚ)) 10 = true ∧
    (getSafetyAdviceFallback ⟨some 5, 0, none, some 50, 0⟩ none "vi" []).risk.rank ≤
      (getSafetyAdviceFallback ⟨some 5, 0, none, some 100.1, 0⟩ none "vi" []).risk.rank :=
  ⟨by decide,
    (cascade_monotone_in_rainfall ⟨some 5, 0, none, none, 0⟩ none "vi" []).2 (by decide)⟩

/-! ## C9: only above-Low samples are emitted as dangerous segments -/

lemma segmentRiskAndReasons_fst (data : LocationData) :
    (segmentRiskAndReasons data).1 = RiskLevel.low ∨
    (segmentRiskAndReasons data).1 = RiskLevel.medium ∨
    (segmentRiskAndReasons data).1 = RiskLevel.high := by
  unfold segmentRiskAndReasons
  dsimp only
  split_ifs <;> simp_all

/-- C9.  Every segment emitted by `identifyDangerousSegments` carries risk
`Medium` or `High`, and a sample with known elevation ≥ 10, precipitation
≤ 10 and precipitation + 6h forecast ≤ 20 is never emitted (its
per-sample emission is `none`). -/
theorem dangerous_segments_above_low (segmentDataWithCoords : List SegmentInput)
    (totalDistance : ℚ) (vehicleType : Option VehicleType) :
    (∀ seg ∈ identifyDangerousSegments segmentDataWithCoords totalDistance vehicleType,
      seg.riskLevel = RiskLevel.medium ∨ seg.riskLevel = RiskLevel.high) ∧
    (∀ (count : ℕ) (td : ℚ) (s : SegmentInput) (e : ℚ),
      s.data.elevation = some e → 10 ≤ e →
      s.data.precipitation ≤ 10 →
      s.data.precipitation + s.data.precipForecast6h.getD 0 ≤ 20 →
      emitSegment count td s = none) := by
  constructor
  · intro seg hseg
    obtain ⟨s, hs, hemit⟩ := List.mem_filterMap.1 hseg
    unfold emitSegment at hemit
    dsimp only at hemit
    split_ifs at hemit with hcond hpos
    all_goals
      rw [Option.some_inj] at hemit
      obtain ⟨hne, -⟩ := hcond
      obtain h1 | h2 | h3 := segmentRiskAndReasons_fst s.data
      · exact absurd h1 hne
      · left
        rw [← hemit]
        exact h2
      · right
        rw [← hemit]
        exact h3
  · intro count td s e he h10 hp ht
    have h3 : ¬ (elevBelow s.data.elevation 3 = true) := by
      simp only [elevBelow, he, decide_eq_true_eq]
      linarith
    have h10' : ¬ (elevBelow s.data.elevation 10 = true) := by
      simp only [elevBelow, he, decide_eq_true_eq]
      linarith
    have hrr : segmentRiskAndReasons s.data = (RiskLevel.low, []) := by
      unfold segmentRiskAndReasons
      dsimp only
      rw [if_neg h3, if_neg h10',
        if_neg (show ¬ (s.data.precipitation + s.data.precipForecast6h.getD 0 > 30) by linarith),
        if_neg (show ¬ (s.data.precipitation > 20) by linarith),
        if_neg (show ¬ (s.data.precipitation > 10 ∨
          s.data.precipitation + s.data.precipForecast6h.getD 0 > 20) by
            push_neg
            exact ⟨by linarith, by linarith⟩)]
    unfold emitSegment
    dsimp only
    rw [hrr]
    simp

/-- Witness for C9: a 2 m-elevation sample is emitted as `High`, while an
elevation-12 m, light-rain sample is not emitted. -/
theorem dangerous_segments_above_low_witness :
    ((⟨⟨0, 0⟩, 0, RiskLevel.high,
        "độ cao rất thấp (" ++ toString ((some (2 : ℚ)).getD 0) ++ "m)",
        round1 0⟩ : DangerousSegment).riskLevel = RiskLevel.medium ∨
      (⟨⟨0, 0⟩, 0, RiskLevel.high,
        "độ cao rất thấp (" ++ toString ((some (2 : ℚ)).getD 0) ++ "m)",
        round1 0⟩ : DangerousSegment).riskLevel = RiskLevel.high) ∧
    emitSegment 8 1000 ⟨⟨some 12, 5, some 5, none, 0⟩, ⟨0, 0⟩, 1⟩ = none :=
  ⟨(dangerous_segments_above_low [⟨⟨some 2, 0, some 0, none, 0⟩, ⟨0, 0⟩, 0⟩] 0 none).1
      _ (by rw [show identifyDangerousSegments
          [⟨⟨some 2, 0, some 0, none, 0⟩, ⟨0, 0⟩, 0⟩] 0 none =
        [⟨⟨0, 0⟩, 0, RiskLevel.high,
          "độ cao rất thấp (" ++ toString ((some (2 : ℚ)).getD 0) ++ "m)", round1 0⟩]
        by with_unfolding_all rfl]; exact List.mem_singleton.2 rfl),
   (dangerous_segments_above_low [] 0 none).2 8 1000
      ⟨⟨some 12, 5, some 5, none, 0⟩, ⟨0, 0⟩, 1⟩ 12 rfl (by norm_num) (by norm_num)
      (by norm_num)⟩

/-! ## C10: the distance-from-start formula of emitted segments -/

/-- C10.  For nonnegative total route distance, every emitted dangerous
segment's distance-from-start equals
`(sequenceIndex / sampleCount) * (totalDistanceMeters / 1000)` rounded to one
decimal, where `sampleCount` is the number of sampled points. -/
theorem dangerous_segment_distance (segmentDataWithCoords : List SegmentInput)
    (totalDistance : ℚ) (vehicleType : Option VehicleType)
    (h : 0 ≤ totalDistance) :
    ∀ seg ∈ identifyDangerousSegments segmentDataWithCoords totalDistance vehicleType,
      seg.distanceFromStart =
        round1 (((seg.segmentIndex : ℚ) / segmentDataWithCoords.length) *
          (totalDistance / 1000)) := by
  intro seg hseg
  obtain ⟨s, hs, hemit⟩ := List.mem_filterMap.1 hseg
  unfold emitSegment at hemit
  dsimp only at hemit
  split_ifs at hemit with hcond hpos
  · rw [Option.some_inj] at hemit
    subst hemit
    rfl
  · rw [Option.some_inj] at hemit
    subst hemit
    have h0 : totalDistance = 0 := le_antisymm (not_lt.1 hpos) h
    dsimp only
    rw [h0]
    norm_num

/-- Witness for C10: the 2 m sample of a zero-length route sits at rounded
distance `round1 ((0 / 1) * (0 / 1000))` from the start. -/
theorem dangerous_segment_distance_witness :
    (0 : ℚ) ≤ 0 ∧
    ((⟨⟨0, 0⟩, 0, RiskLevel.high,
        "độ cao rất thấp (" ++ toString ((some (2 : ℚ)).getD 0) ++ "m)",
        round1 0⟩ : DangerousSegment).distanceFromStart =
      round1 ((((⟨⟨0, 0⟩, 0, RiskLevel.high,
        "độ cao rất thấp (" ++ toString ((some (2 : ℚ)).getD 0) ++ "m)",
        round1 0⟩ : DangerousSegment).segmentIndex : ℚ) /
          ([⟨⟨some 2, 0, some 0, none, 0⟩, ⟨0, 0⟩, 0⟩] : List SegmentInput).length) *
        ((0 : ℚ) / 1000))) :=
  ⟨le_refl 0,
   dangerous_segment_distance [⟨⟨some 2, 0, some 0, none, 0⟩, ⟨0, 0⟩, 0⟩] 0 none
      (le_refl 0) _ (by rw [show identifyDangerousSegments
          [⟨⟨some 2, 0, some 0, none, 0⟩, ⟨0, 0⟩, 0⟩] 0 none =
        [⟨⟨0, 0⟩, 0, RiskLevel.high,
          "độ cao rất thấp (" ++ toString ((some (2 : ℚ)).getD 0) ++ "m)", round1 0⟩]
        by with_unfolding_all rfl]; exact List.mem_singleton.2 rfl)⟩

/-! ## C8: the evenly-spaced route sampler -/

/-- C8.  For `numSamples ≥ 2` (the formula's denominator is `numSamples - 1`;
the source default is 8): a polyline no longer than `numSamples` is returned
unchanged; a longer polyline yields exactly `numSamples` points, the `i`-th
being the element at index `round (i * (len - 1) / (numSamples - 1))` — an
always in-range index — so the first and last returned points are the
polyline's first and last points. -/
theorem sample_route_points_spec (coordinates : List Coordinates) (numSamples : ℕ)
    (h2 : 2 ≤ numSamples) :
    (coordinates.length ≤ numSamples →
      sampleRoutePoints coordinates numSamples = coordinates) ∧
    (numSamples < coordinates.length →
      (sampleRoutePoints coordinates numSamples).length = numSamples ∧
      (∀ i, i < numSamples →
        (sampleRoutePoints coordinates numSamples).getD i default =
          coordinates.getD (jsRound ((i : ℚ) *
            (((coordinates.length : ℚ) - 1) / ((numSamples : ℚ) - 1)))).toNat default ∧
        (jsRound ((i : ℚ) *
            (((coordinates.length : ℚ) - 1) / ((numSamples : ℚ) - 1)))).toNat <
          coordinates.length) ∧
      (sampleRoutePoints coordinates numSamples).getD 0 default =
        coordinates.getD 0 default ∧
      (sampleRoutePoints coordinates numSamples).getD (numSamples - 1) default =
        coordinates.getD (coordinates.length - 1) default) := by
  constructor
  · intro hle
    unfold sampleRoutePoints
    split_ifs with h0
    · exact (List.length_eq_zero.1 h0).symm
    · rfl
  · intro hlt
    have hL1 : 1 ≤ coordinates.length := by omega
    have hn0 : ¬ (coordinates.length = 0) := by omega
    have hn1 : ¬ (coordinates.length ≤ numSamples) := by omega
    have hQn : (1 : ℚ) ≤ (numSamples : ℚ) := by exact_mod_cast Nat.one_le_of_lt h2
    have hQn' : ((numSamples : ℚ) - 1) ≠ 0 := by
      have : (2 : ℚ) ≤ (numSamples : ℚ) := by exact_mod_cast h2
      linarith
    have hQL : (1 : ℚ) ≤ (coordinates.length : ℚ) := by exact_mod_cast hL1
    have hstep0 : 0 ≤ ((coordinates.length : ℚ) - 1) / ((numSamples : ℚ) - 1) := by
      apply div_nonneg <;> linarith
    have hsample : sampleRoutePoints coordinates numSamples =
        (List.range numSamples).map (fun i : ℕ => coordinates.getD
          (jsRound ((i : ℚ) *
            (((coordinates.length : ℚ) - 1) / ((numSamples : ℚ) - 1)))).toNat default) := by
      unfold sampleRoutePoints
      rw [if_neg hn0, if_neg hn1]
    have hget : ∀ i, i < numSamples →
        (sampleRoutePoints coordinates numSamples).getD i default =
          coordinates.getD (jsRound ((i : ℚ) *
            (((coordinates.length : ℚ) - 1) / ((numSamples : ℚ) - 1)))).toNat default := by
      intro i hi
      rw [hsample, List.getD_eq_getElem?_getD, List.getElem?_map,
        List.getElem?_range hi]
      rfl
    have hbound : ∀ i, i < numSamples →
        (jsRound ((i : ℚ) *
          (((coordinates.length : ℚ) - 1) / ((numSamples : ℚ) - 1)))).toNat <
          coordinates.length := by
      intro i hi
      have hiQ : (i : ℚ) ≤ (numSamples : ℚ) - 1 := by
        have : (i : ℚ) + 1 ≤ (numSamples : ℚ) := by exact_mod_cast hi
        linarith
      have hx0 : 0 ≤ (i : ℚ) *
          (((coordinates.length : ℚ) - 1) / ((numSamples : ℚ) - 1)) :=
        mul_nonneg (by positivity) hstep0
      have hxle : (i : ℚ) *
          (((coordinates.length : ℚ) - 1) / ((numSamples : ℚ) - 1)) ≤
            (coordinates.length : ℚ) - 1 := by
        calc (i : ℚ) * (((coordinates.length : ℚ) - 1) / ((numSamples : ℚ) - 1))
            ≤ ((numSamples : ℚ) - 1) *
              (((coordinates.length : ℚ) - 1) / ((numSamples : ℚ) - 1)) :=
              mul_le_mul_of_nonneg_right hiQ hstep0
          _ = (coordinates.length : ℚ) - 1 := by
              rw [mul_comm, div_mul_cancel₀ _ hQn']
      have hfl0 : 0 ≤ jsRound ((i : ℚ) *
          (((coordinates.length : ℚ) - 1) / ((numSamples : ℚ) - 1))) := by
        apply Int.floor_nonneg.2
        linarith
      have hflt : jsRound ((i : ℚ) *
          (((coordinates.length : ℚ) - 1) / ((numSamples : ℚ) - 1))) <
            (coordinates.length : ℤ) := by
        apply Int.floor_lt.2
        push_cast
        linarith
      omega
    refine ⟨by rw [hsample, List.length_map, List.length_range], fun i hi =>
      ⟨hget i hi, hbound i hi⟩, ?_, ?_⟩
    · rw [hget 0 (by omega)]
      have : jsRound ((0 : ℕ) *
          (((coordinates.length : ℚ) - 1) / ((numSamples : ℚ) - 1))) = 0 := by
        unfold jsRound
        push_cast
        rw [zero_mul, zero_add]
        rw [Int.floor_eq_zero_iff]
        constructor <;> norm_num
      rw [this]
      rfl
    · rw [hget (numSamples - 1) (by omega)]
      have hcast : ((numSamples - 1 : ℕ) : ℚ) = (numSamples : ℚ) - 1 := by
        push_cast [Nat.cast_sub (by omega : 1 ≤ numSamples)]
        ring
      have hval : ((numSamples - 1 : ℕ) : ℚ) *
          (((coordinates.length : ℚ) - 1) / ((numSamples : ℚ) - 1)) =
            (coordinates.length : ℚ) - 1 := by
        rw [hcast, mul_comm, div_mul_cancel₀ _ hQn']
      have hfloor : jsRound (((numSamples - 1 : ℕ) : ℚ) *
          (((coordinates.length : ℚ) - 1) / ((numSamples : ℚ) - 1))) =
            (coordinates.length : ℤ) - 1 := by
        unfold jsRound
        rw [hval]
        rw [Int.floor_eq_iff]
        constructor
        · push_cast
          linarith
        · push_cast
          linarith
      rw [hfloor]
      congr 1
      omega

/-- Witness for C8, the spec example: an 11-point polyline sampled at 8
returns exactly 8 points whose first and last are `p0` and `p10`. -/
theorem sample_route_points_spec_witness :
    2 ≤ 8 ∧
    (sampleRoutePoints [⟨0, 0⟩, ⟨1, 0⟩, ⟨2, 0⟩, ⟨3, 0⟩, ⟨4, 0⟩, ⟨5, 0⟩, ⟨6, 0⟩,
        ⟨7, 0⟩, ⟨8, 0⟩, ⟨9, 0⟩, ⟨10, 0⟩] 8).length = 8 ∧
    (sampleRoutePoints [⟨0, 0⟩, ⟨1, 0⟩, ⟨2, 0⟩, ⟨3, 0⟩, ⟨4, 0⟩, ⟨5, 0⟩, ⟨6, 0⟩,
        ⟨7, 0⟩, ⟨8, 0⟩, ⟨9, 0⟩, ⟨10, 0⟩] 8).getD 0 default =
      ([⟨0, 0⟩, ⟨1, 0⟩, ⟨2, 0⟩, ⟨3, 0⟩, ⟨4, 0⟩, ⟨5, 0⟩, ⟨6, 0⟩,
        ⟨7, 0⟩, ⟨8, 0⟩, ⟨9, 0⟩, ⟨10, 0⟩] : List Coordinates).getD 0 default ∧
    (sampleRoutePoints [⟨0, 0⟩, ⟨1, 0⟩, ⟨2, 0⟩, ⟨3, 0⟩, ⟨4, 0⟩, ⟨5, 0⟩, ⟨6, 0⟩,
        ⟨7, 0⟩, ⟨8, 0⟩, ⟨9, 0⟩, ⟨10, 0⟩] 8).getD 7 default =
      ([⟨0, 0⟩, ⟨1, 0⟩, ⟨2, 0⟩, ⟨3, 0⟩, ⟨4, 0⟩, ⟨5, 0⟩, ⟨6, 0⟩,
        ⟨7, 0⟩, ⟨8, 0⟩, ⟨9, 0⟩, ⟨10, 0⟩] : List Coordinates).getD 10 default :=
  ⟨by decide,
   ((sample_route_points_spec [⟨0, 0⟩, ⟨1, 0⟩, ⟨2, 0⟩, ⟨3, 0⟩, ⟨4, 0⟩, ⟨5, 0⟩,
       ⟨6, 0⟩, ⟨7, 0⟩, ⟨8, 0⟩, ⟨9, 0⟩, ⟨10, 0⟩] 8 (by decide)).2 (by decide)).1,
   ((sample_route_points_spec [⟨0, 0⟩, ⟨1, 0⟩, ⟨2, 0⟩, ⟨3, 0⟩, ⟨4, 0⟩, ⟨5, 0⟩,
       ⟨6, 0⟩, ⟨7, 0⟩, ⟨8, 0⟩, ⟨9, 0⟩, ⟨10, 0⟩] 8 (by decide)).2 (by decide)).2.2.1,
   ((sample_route_points_spec [⟨0, 0⟩, ⟨1, 0⟩, ⟨2, 0⟩, ⟨3, 0⟩, ⟨4, 0⟩, ⟨5, 0⟩,
       ⟨6, 0⟩, ⟨7, 0⟩, ⟨8, 0⟩, ⟨9, 0⟩, ⟨10, 0⟩] 8 (by decide)).2 (by decide)).2.2.2⟩

/-! ## C5: the GDACS Red/Orange bounding-box override -/

lemma mergeSort_desc_head_max {α : Type} (f : α → ℕ) (l : List α) (x : α)
    (rest : List α)
    (heq : l.mergeSort (fun a b => decide (f b ≤ f a)) = x :: rest) :
    x ∈ l ∧ ∀ b ∈ l, f b ≤ f x := by
  have hperm := List.mergeSort_perm l (fun a b => decide (f b ≤ f a))
  rw [heq] at hperm
  refine ⟨hperm.subset (List.mem_cons_self x rest), fun b hb => ?_⟩
  have hb' : b ∈ x :: rest := hperm.symm.subset hb
  have hpw : (l.mergeSort (fun a b => decide (f b ≤ f a))).Pairwise
      (fun a b => decide (f b ≤ f a) = true) :=
    List.sorted_mergeSort
      (fun a b c hab hbc => by
        simp only [decide_eq_true_eq] at *
        omega)
      (fun a b => by
        simp only [Bool.or_eq_true, decide_eq_true_eq]
        omega)
      l
  rw [heq, List.pairwise_cons] at hpw
  rcases List.mem_cons.1 hb' with hbx | hbr
  · rw [hbx]
  · have := hpw.1 b hbr
    simpa using this

/-- C5.  If the analyzed point lies inside the bounding box of at least one
alert of severity `Red` or `Orange`, then the final risk is `High` and the
advice is the banner for the maximal-severity matching alert (order
`Red > Orange > Green`) prefixed to the AI advice. -/
theorem gdacs_override_forces_high (coords : Coordinates)
    (gdacsAlerts : List GDACSFloodAlert) (isEnglish : Bool)
    (aiRisk : RiskLevel) (aiAdvice : String)
    (h : ∃ a ∈ gdacsAlerts, isWithinBBox coords a.bbox ∧
      (a.alertLevel = AlertLevel.Red ∨ a.alertLevel = AlertLevel.Orange)) :
    (applyGDACSOverride coords gdacsAlerts isEnglish aiRisk aiAdvice).1 =
      RiskLevel.high ∧
    ∃ hi ∈ gdacsAlerts.filter (fun alert => isWithinBBox coords alert.bbox),
      (∀ b ∈ gdacsAlerts.filter (fun alert => isWithinBBox coords alert.bbox),
        alertOrder b.alertLevel ≤ alertOrder hi.alertLevel) ∧
      (hi.alertLevel = AlertLevel.Red ∨ hi.alertLevel = AlertLevel.Orange) ∧
      (applyGDACSOverride coords gdacsAlerts isEnglish aiRisk aiAdvice).2 =
        gdacsWarning isEnglish hi.alertLevel aiAdvice := by
  obtain ⟨a, ha, hbox, hlev⟩ := h
  have haL : a ∈ gdacsAlerts.filter (fun alert => isWithinBBox coords alert.bbox) :=
    List.mem_filter.2 ⟨ha, hbox⟩
  have hlen : (gdacsAlerts.filter (fun alert => isWithinBBox coords alert.bbox)).length > 0 :=
    List.length_pos.2 (fun h0 => by rw [h0] at haL; exact absurd haL (List.not_mem_nil a))
  unfold applyGDACSOverride
  dsimp only
  rw [if_pos hlen]
  split
  · next heq =>
    exfalso
    have := congrArg List.length heq
    rw [List.length_mergeSort, List.length_nil] at this
    omega
  · next hi rest heq =>
    obtain ⟨hhi_mem, hmax⟩ := mergeSort_desc_head_max
      (fun alert => alertOrder alert.alertLevel) _ hi rest heq
    have hord : 2 ≤ alertOrder hi.alertLevel := by
      have h2 : 2 ≤ alertOrder a.alertLevel := by
        rcases hlev with h' | h' <;> simp [h', alertOrder]
      exact le_trans h2 (hmax a haL)
    have hRO : hi.alertLevel = AlertLevel.Red ∨ hi.alertLevel = AlertLevel.Orange := by
      cases hhl : hi.alertLevel <;> simp_all [alertOrder]
    rw [if_pos hRO]
    exact ⟨rfl, hi, hhi_mem, hmax, hRO, rfl⟩

/-- Witness for C5, the spec scenario: a point inside a `Red` bounding box
with underlying risk `Low` — the final risk is forced to `High`. -/
theorem gdacs_override_forces_high_witness :
    (∃ a ∈ ([⟨AlertLevel.Green, (0, 0, 2, 2)⟩, ⟨AlertLevel.Red, (0, 0, 2, 2)⟩] :
        List GDACSFloodAlert), isWithinBBox ⟨1, 1⟩ a.bbox ∧
      (a.alertLevel = AlertLevel.Red ∨ a.alertLevel = AlertLevel.Orange)) ∧
    (applyGDACSOverride ⟨1, 1⟩
      [⟨AlertLevel.Green, (0, 0, 2, 2)⟩, ⟨AlertLevel.Red, (0, 0, 2, 2)⟩]
      false RiskLevel.low "lời khuyên").1 = RiskLevel.high :=
  ⟨⟨⟨AlertLevel.Red, (0, 0, 2, 2)⟩, by decide⟩,
   (gdacs_override_forces_high ⟨1, 1⟩
      [⟨AlertLevel.Green, (0, 0, 2, 2)⟩, ⟨AlertLevel.Red, (0, 0, 2, 2)⟩]
      false RiskLevel.low "lời khuyên"
      ⟨⟨AlertLevel.Red, (0, 0, 2, 2)⟩, by decide⟩).1⟩

/-! ## C7: the nearest-station lookup -/

/-- C7.  For every distance function, target, station list, radius and cap:
the lookup returns at most `maxResults` stations, each with computed distance
≤ `radiusKm`, sorted ascending by distance; it returns the empty list (never
a failure) on an empty input or when no station is within the radius; and it
equals the stability-explicit indexed sort (`findNearbyIndexed`), which is a
permutation of the position-tagged filtered list sorted so that equal
distances keep their original input order. -/
theorem find_nearby_stations_spec (dist : Coordinates → Coordinates → ℚ)
    (targetCoords : Coordinates) (allStations : List NCHMFStation)
    (radiusKm : ℚ) (maxResults : ℕ) :
    (findNearbyNCHMFStations dist targetCoords allStations radiusKm maxResults).length ≤
      maxResults ∧
    (∀ p ∈ findNearbyNCHMFStations dist targetCoords allStations radiusKm maxResults,
      p.2 ≤ radiusKm) ∧
    (findNearbyNCHMFStations dist targetCoords allStations radiusKm
        maxResults).Pairwise (fun a b => a.2 ≤ b.2) ∧
    (allStations = [] →
      findNearbyNCHMFStations dist targetCoords allStations radiusKm maxResults = []) ∧
    ((∀ s ∈ allStations, radiusKm < dist targetCoords ⟨s.lat, s.lon⟩) →
      findNearbyNCHMFStations dist targetCoords allStations radiusKm maxResults = []) ∧
    (findNearbyNCHMFStations dist targetCoords allStations radiusKm maxResults =
      ((findNearbyIndexed dist targetCoords allStations radiusKm).map
        (fun p => p.2)).take maxResults) ∧
    (findNearbyIndexed dist targetCoords allStations radiusKm).Perm
      (((allStations.map
          (fun station => (station, dist targetCoords ⟨station.lat, station.lon⟩))).filter
        (fun station => decide (station.2 ≤ radiusKm))).enum) ∧
    (findNearbyIndexed dist targetCoords allStations radiusKm).Pairwise
      (fun a b => a.2.2 ≤ b.2.2 ∧ (b.2.2 ≤ a.2.2 → a.1 ≤ b.1)) := by
  have htrans : ∀ a b c : NCHMFStation × ℚ,
      (fun a b : NCHMFStation × ℚ => decide (a.2 ≤ b.2)) a b →
      (fun a b : NCHMFStation × ℚ => decide (a.2 ≤ b.2)) b c →
      (fun a b : NCHMFStation × ℚ => decide (a.2 ≤ b.2)) a c := by
    intro a b c hab hbc
    simp only [decide_eq_true_eq] at *
    linarith
  have htotal : ∀ a b : NCHMFStation × ℚ,
      ((fun a b : NCHMFStation × ℚ => decide (a.2 ≤ b.2)) a b ||
       (fun a b : NCHMFStation × ℚ => decide (a.2 ≤ b.2)) b a) = true := by
    intro a b
    simp only [Bool.or_eq_true, decide_eq_true_eq]
    exact le_total _ _
  refine ⟨?_, ?_, ?_, ?_, ?_, ?_, ?_, ?_⟩
  · exact List.length_take_le _ _
  · intro p hp
    have hp1 : p ∈ ((allStations.map
        (fun station => (station, dist targetCoords ⟨station.lat, station.lon⟩))).filter
          (fun station => decide (station.2 ≤ radiusKm))).mergeSort
        (fun a b => decide (a.2 ≤ b.2)) := List.take_subset _ _ hp
    rw [List.mem_mergeSort] at hp1
    have := (List.mem_filter.1 hp1).2
    simpa using this
  · have hs := List.sorted_mergeSort htrans htotal
      ((allStations.map
        (fun station => (station, dist targetCoords ⟨station.lat, station.lon⟩))).filter
          (fun station => decide (station.2 ≤ radiusKm)))
    have hs' := hs.sublist (List.take_sublist maxResults _)
    exact hs'.imp (fun h => by simpa using h)
  · intro h
    rw [h]
    simp [findNearbyNCHMFStations]
  · intro hfar
    have hb : (allStations.map
        (fun station => (station, dist targetCoords ⟨station.lat, station.lon⟩))).filter
          (fun station => decide (station.2 ≤ radiusKm)) = [] := by
      rw [List.filter_eq_nil_iff]
      intro x hx
      obtain ⟨s, hs, rfl⟩ := List.mem_map.1 hx
      simp only [decide_eq_true_eq]
      exact not_le.2 (hfar s hs)
    unfold findNearbyNCHMFStations
    rw [hb]
    simp
  · unfold findNearbyNCHMFStations findNearbyIndexed
    rw [List.mergeSort_enum]
  · exact List.mergeSort_perm _ _
  · have hs := List.sorted_mergeSort
      (List.enumLE_trans htrans) (List.enumLE_total htotal)
      (((allStations.map
        (fun station => (station, dist targetCoords ⟨station.lat, station.lon⟩))).filter
          (fun station => decide (station.2 ≤ radiusKm))).enum)
    refine hs.imp ?_
    intro a b h
    simp only [List.enumLE] at h
    split_ifs at h with h1 h2
    · exact ⟨by simpa using h1, fun _ => by simpa using h⟩
    · exact ⟨by simpa using h1, fun hc => absurd hc (by simpa using h2)⟩

/-- Witness for C7: a three-station list with a tie at distance 1, capped at
two results; the empty-input case returns the empty list. -/
theorem find_nearby_stations_spec_witness :
    (findNearbyNCHMFStations (fun a b => |a.lat - b.lat| + |a.lng - b.lng|)
        ⟨0, 0⟩ [⟨1, 5, 0, none, 0⟩, ⟨2, 1, 0, none, 0⟩, ⟨3, 1, 0, none, 0⟩]
        50 2).length ≤ 2 ∧
    findNearbyNCHMFStations (fun a b => |a.lat - b.lat| + |a.lng - b.lng|)
        ⟨0, 0⟩ [] 50 2 = [] :=
  ⟨(find_nearby_stations_spec (fun a b => |a.lat - b.lat| + |a.lng - b.lng|)
      ⟨0, 0⟩ [⟨1, 5, 0, none, 0⟩, ⟨2, 1, 0, none, 0⟩, ⟨3, 1, 0, none, 0⟩] 50 2).1,
   (find_nearby_stations_spec (fun a b => |a.lat - b.lat| + |a.lng - b.lng|)
      ⟨0, 0⟩ [] 50 2).2.2.2.1 rfl⟩
